import Mathlib

/-!
Shallow embedding of the `PluginServer` subsystem of the WebThings gateway
(`src/addon-manager/plugin-server.ts`, given as `src/unnamed/part_000`).

Modelling conventions:
* The registry `Map<string, Plugin>` becomes an association list with JS
  `Map` semantics (`mapGet` finds the first entry, `mapSet` replaces the
  first entry with the key or appends, `mapDelete` removes the first entry
  with the key).  A real `Map` never holds two entries with one key, so
  theorems that need uniqueness take the `nodupKeys` invariant as a
  hypothesis.
* At runtime `msg.data.pluginId` may be absent (`undefined`), so plugin ids
  are `Option String`: `none` stands for `undefined`, and JS truthiness of
  the id (`undefined` and the empty string are falsy) is the `truthy`
  function.
* JS object identity of `Plugin` instances is modelled by a fresh `instId`
  drawn from an allocation counter `nextInstId`; `new Plugin(...)` consumes
  one number, so two `Plugin` values with the same `instId` are the same
  instance.
* Mutation of a plugin object that is shared with the registry
  (`plugin.ws = ws` etc.) is translated to writing the updated record back
  into the registry with `mapSet`.
* The settings promises `Settings.getSetting(...)` are external; each
  lookup's outcome is a parameter of type `Except Unit (Option String)`:
  `Except.error` is a rejected promise, `Except.ok v` a promise resolved
  with `v` (`none` for a missing/null setting, `some s` for a string).
* `pkg.version` and the `UserProfile` directory constants are external
  configuration; they are parameters of `onMsg`.
-/

-- Message-type codes used by the plugin IPC protocol.  The concrete
-- numbers live in the external `gateway-addon` package; only their
-- distinctness matters here.
namespace MessageType

def PLUGIN_REGISTER_REQUEST : Nat := 0

def PLUGIN_REGISTER_RESPONSE : Nat := 1

def PLUGIN_UNLOADED : Nat := 2

def PROPERTY_CHANGED : Nat := 8

end MessageType

/-- One inbound IPC envelope: `msg.messageType` plus the
`msg.data.pluginId` field (the only part of `data` the Plugin Server
reads; `none` models an absent/`undefined` id). -/
structure Message where
  messageType : Nat
  pluginId : Option String
deriving DecidableEq, Repr

/-- JS truthiness of an optional plugin-id / setting string: `undefined`
(`none`) and the empty string are falsy, every other string is truthy. -/
def truthy : Option String → Bool
  | none => false
  | some s => !(s == "")

/-- One `Plugin` registry entry.  The `Plugin` class itself
(`require('./plugin')`) is not part of the given source.  Modelled from
the spec: a `Plugin` carries a process-unique id, a channel handle (unset
before registration completes), a launch descriptor (`exec`/`execPath`,
absent for self-registering plugins), whether its process was started,
and — standing in for its own message handler — the list of envelopes
delivered to it.  `instId` is the object-identity tag (see module
comment). -/
structure Plugin where
  instId : Nat
  pluginId : Option String
  ws : Option Nat
  exec : Option String
  execPath : Option String
  started : Bool
  received : List Message
deriving DecidableEq, Repr

/-- The result of `new Plugin(pluginId, this)`: launch descriptor and
channel handle absent, nothing delivered yet. -/
def newPlugin (instId : Nat) (pluginId : Option String) : Plugin :=
  { instId := instId
    pluginId := pluginId
    ws := none
    exec := none
    execPath := none
    started := false
    received := [] }

/-- A registry, the association-list model of `Map<string, Plugin>`
(keys are `Option String`, see module comment). -/
abbrev Registry := List (Option String × Plugin)

/-- `Map.prototype.get`: first entry with the key, if any. -/
def mapGet : Registry → Option String → Option Plugin
  | [], _ => none
  | e :: rest, k => if e.1 = k then some e.2 else mapGet rest k

/-- `Map.prototype.set`: replace the first entry with the key, or append
a new entry. -/
def mapSet : Registry → Option String → Plugin → Registry
  | [], k, v => [(k, v)]
  | e :: rest, k, v => if e.1 = k then (k, v) :: rest else e :: mapSet rest k v

/-- `Map.prototype.delete`: remove the first entry with the key. -/
def mapDelete : Registry → Option String → Registry
  | [], _ => []
  | e :: rest, k => if e.1 = k then rest else e :: mapDelete rest k

/-- Number of registry entries stored under a key. -/
def countKey : Registry → Option String → Nat
  | [], _ => 0
  | e :: rest, k => (if e.1 = k then 1 else 0) + countKey rest k

/-- The `Map` representation invariant: no key occurs twice. -/
def nodupKeys (l : Registry) : Prop :=
  (l.map Prod.fst).Nodup

instance (l : Registry) : Decidable (nodupKeys l) := by
  unfold nodupKeys; infer_instance

/-- One pass-through notification to the Add-on Manager.  Capability
proxies are identified by an abstract numeric handle. -/
inductive ManagerCall where
  | addAdapter (proxy : Nat)
  | addNotifier (proxy : Nat)
  | addAPIHandler (proxy : Nat)
deriving DecidableEq, Repr

/-- The observable state of the Plugin Server: the plugin registry, the
object-identity allocator, and the log of notifications forwarded to the
Add-on Manager. -/
structure PluginServer where
  plugins : Registry
  nextInstId : Nat
  managerCalls : List ManagerCall
deriving DecidableEq, Repr

/-- The state right after the constructor: empty registry, nothing
forwarded. -/
def initialServer : PluginServer :=
  { plugins := [], nextInstId := 0, managerCalls := [] }

/-- `PluginServer.registerPlugin`: return the registered `Plugin` for the
id, creating and storing a fresh one if absent. -/
def registerPlugin (s : PluginServer) (pluginId : Option String) : Plugin × PluginServer :=
  match mapGet s.plugins pluginId with
  | some plugin => (plugin, s)
  | none =>
    let plugin := newPlugin s.nextInstId pluginId
    (plugin,
      { s with
        plugins := mapSet s.plugins pluginId plugin
        nextInstId := s.nextInstId + 1 })

/-- `PluginServer.getPlugin`: registry lookup. -/
def getPlugin (s : PluginServer) (pluginId : Option String) : Option Plugin :=
  mapGet s.plugins pluginId

/-- `PluginServer.unregisterPlugin`: delete the id from the registry. -/
def unregisterPlugin (s : PluginServer) (pluginId : Option String) : PluginServer :=
  { s with plugins := mapDelete s.plugins pluginId }

/-- `PluginServer.addAdapter`: forward the adapter proxy to the Add-on
Manager. -/
def addAdapter (s : PluginServer) (adapter : Nat) : PluginServer :=
  { s with managerCalls := s.managerCalls ++ [ManagerCall.addAdapter adapter] }

/-- `PluginServer.addNotifier`: forward the notifier proxy to the Add-on
Manager. -/
def addNotifier (s : PluginServer) (notifier : Nat) : PluginServer :=
  { s with managerCalls := s.managerCalls ++ [ManagerCall.addNotifier notifier] }

/-- `PluginServer.addAPIHandler`: forward the API-handler proxy to the
Add-on Manager. -/
def addAPIHandler (s : PluginServer) (handler : Nat) : PluginServer :=
  { s with managerCalls := s.managerCalls ++ [ManagerCall.addAPIHandler handler] }

/-- The `moziot` block of an add-on manifest (only `exec` is read). -/
structure Moziot where
  exec : String
deriving DecidableEq, Repr

/-- An add-on manifest (only `name` and `moziot.exec` are read). -/
structure Manifest where
  name : String
  moziot : Moziot
deriving DecidableEq, Repr

/-- `PluginServer.loadPlugin`: register (or reuse) the plugin under the
manifest's name, attach the launch descriptor, and start the process.
`Plugin.start` itself is not in the given source; modelled from the spec
as launching the stored executable, recorded by the `started` flag. -/
def loadPlugin (s : PluginServer) (pluginPath : String) (manifest : Manifest) : PluginServer :=
  let r := registerPlugin s (some manifest.name)
  let plugin :=
    { r.1 with
      exec := some manifest.moziot.exec
      execPath := some pluginPath
      started := true }
  { r.2 with plugins := mapSet r.2.plugins (some manifest.name) plugin }

/-- Outcome of one `Settings.getSetting` promise: `Except.error` for a
rejected promise, `Except.ok v` for a promise resolved with `v`. -/
abbrev SettingOutcome := Except Unit (Option String)

/-- The preference part of the handshake, mirroring the promise chain of
`onMsg`: `language` starts at `"en-US"` and `units.temperature` at
`"degree celsius"`; a resolved truthy language overwrites the default,
then the temperature lookup runs, a resolved truthy value overwriting its
default; a rejection anywhere skips the remaining handlers and is
swallowed by the final `catch`.  Returns (language, temperature). -/
def handshakePrefs (o1 o2 : SettingOutcome) : String × String :=
  match o1 with
  | Except.error _ => ("en-US", "degree celsius")
  | Except.ok lang =>
    let language := if truthy lang then lang.getD "en-US" else "en-US"
    match o2 with
    | Except.error _ => (language, "degree celsius")
    | Except.ok temp =>
      (language, if truthy temp then temp.getD "degree celsius" else "degree celsius")

/-- The seven `UserProfile` directory constants sent in the handshake
response (external configuration, passed in as a parameter). -/
structure UserProfileDirs where
  addonsDir : String
  baseDir : String
  configDir : String
  dataDir : String
  mediaDir : String
  logDir : String
  gatewayDir : String
deriving DecidableEq, Repr

/-- The `units` object of the register-response preferences (named
`UnitsPref` because `Units` is taken in Lean). -/
structure UnitsPref where
  temperature : String
deriving DecidableEq, Repr

/-- The `preferences` object of the register response. -/
structure Preferences where
  language : String
  units : UnitsPref
deriving DecidableEq, Repr

/-- The `data` payload of the register response, mirroring the object
literal in `onMsg` field by field. -/
structure RegisterResponseData where
  pluginId : Option String
  gatewayVersion : String
  userProfile : UserProfileDirs
  preferences : Preferences
deriving DecidableEq, Repr

/-- One message written back on a connection by `ws.send`: the channel it
was sent on, the message type, and the payload. -/
structure SentMessage where
  channel : Nat
  messageType : Nat
  data : RegisterResponseData
deriving DecidableEq, Repr

/-- `PluginServer.onMsg`: the dispatch entry point.  A register request
resolves/creates the `Plugin`, rebinds its channel handle to the
connection the request arrived on, and sends the register response built
from the gateway version, the profile directories and the resolved
preferences.  Any other envelope is forwarded to the registered plugin's
own handler when its id is truthy and registered, and silently dropped
otherwise.  `gatewayVersion`/`profile` are the external configuration,
`o1`/`o2` the outcomes of the two settings lookups, `ws` the connection
the envelope arrived on.  Returns the new state and the messages sent. -/
def onMsg (gatewayVersion : String) (profile : UserProfileDirs) (o1 o2 : SettingOutcome)
    (s : PluginServer) (msg : Message) (ws : Nat) : PluginServer × List SentMessage :=
  if msg.messageType = MessageType.PLUGIN_REGISTER_REQUEST then
    let r := registerPlugin s msg.pluginId
    let plugin := { r.1 with ws := some ws }
    let s2 := { r.2 with plugins := mapSet r.2.plugins msg.pluginId plugin }
    let prefs := handshakePrefs o1 o2
    (s2,
      [{ channel := ws
         messageType := MessageType.PLUGIN_REGISTER_RESPONSE
         data :=
           { pluginId := msg.pluginId
             gatewayVersion := gatewayVersion
             userProfile := profile
             preferences := { language := prefs.1, units := { temperature := prefs.2 } } } }])
  else if truthy msg.pluginId then
    match getPlugin s msg.pluginId with
    | some plugin =>
      ({ s with
         plugins :=
           mapSet s.plugins msg.pluginId { plugin with received := plugin.received ++ [msg] } },
        [])
    | none => (s, [])
  else (s, [])

/-! Association-list lemmas for the `Map` model. -/

lemma mapGet_mapSet_self (l : Registry) (k : Option String) (v : Plugin) :
    mapGet (mapSet l k v) k = some v := by
  induction l with
  | nil => simp [mapGet, mapSet]
  | cons e rest ih =>
    by_cases h : e.1 = k
    · simp [mapGet, mapSet, h]
    · simp [mapGet, mapSet, h, ih]

lemma mapGet_mapSet_ne (l : Registry) (k k' : Option String) (v : Plugin) (h : k' ≠ k) :
    mapGet (mapSet l k v) k' = mapGet l k' := by
  have hkk : ¬(k = k') := fun hk => h hk.symm
  induction l with
  | nil => simp [mapGet, mapSet, hkk]
  | cons e rest ih =>
    by_cases he : e.1 = k
    · subst he
      have hek : ¬(e.1 = k') := hkk
      simp [mapGet, mapSet, hek]
    · by_cases he' : e.1 = k'
      · subst he'
        simp [mapGet, mapSet, he]
      · simp [mapGet, mapSet, he, he', ih]

lemma mapGet_eq_none_of_not_mem (l : Registry) (k : Option String)
    (h : k ∉ l.map Prod.fst) : mapGet l k = none := by
  induction l with
  | nil => simp [mapGet]
  | cons e rest ih =>
    simp only [List.map_cons, List.mem_cons, not_or] at h
    have hek : ¬(e.1 = k) := fun hk => h.1 hk.symm
    simp [mapGet, hek, ih h.2]

lemma countKey_eq_zero_of_not_mem (l : Registry) (k : Option String)
    (h : k ∉ l.map Prod.fst) : countKey l k = 0 := by
  induction l with
  | nil => simp [countKey]
  | cons e rest ih =>
    simp only [List.map_cons, List.mem_cons, not_or] at h
    have hek : ¬(e.1 = k) := fun hk => h.1 hk.symm
    simp [countKey, hek, ih h.2]

lemma countKey_mapSet_self (l : Registry) (k : Option String) (v : Plugin)
    (h : nodupKeys l) : countKey (mapSet l k v) k = 1 := by
  induction l with
  | nil => simp [mapSet, countKey]
  | cons e rest ih =>
    simp only [nodupKeys, List.map_cons, List.nodup_cons] at h
    by_cases he : e.1 = k
    · subst he
      simp [mapSet, countKey, countKey_eq_zero_of_not_mem rest e.1 h.1]
    · simp [mapSet, countKey, he, ih h.2]

lemma mapSet_keys_of_mem (l : Registry) (k : Option String) (v : Plugin)
    (h : k ∈ l.map Prod.fst) : (mapSet l k v).map Prod.fst = l.map Prod.fst := by
  induction l with
  | nil => simp at h
  | cons e rest ih =>
    by_cases he : e.1 = k
    · simp [mapSet, he]
    · simp only [List.map_cons, List.mem_cons] at h
      rcases h with h | h
      · exact absurd h.symm he
      · simp [mapSet, he, ih h]

lemma mapGet_mapDelete_self (l : Registry) (k : Option String)
    (h : nodupKeys l) : mapGet (mapDelete l k) k = none := by
  induction l with
  | nil => simp [mapDelete, mapGet]
  | cons e rest ih =>
    simp only [nodupKeys, List.map_cons, List.nodup_cons] at h
    by_cases he : e.1 = k
    · subst he
      simp [mapDelete, mapGet_eq_none_of_not_mem rest e.1 h.1]
    · simp [mapDelete, mapGet, he, ih h.2]

lemma mapGet_mapDelete_ne (l : Registry) (k k' : Option String) (h : k' ≠ k) :
    mapGet (mapDelete l k) k' = mapGet l k' := by
  induction l with
  | nil => simp [mapDelete]
  | cons e rest ih =>
    by_cases he : e.1 = k
    · subst he
      have hek : ¬(e.1 = k') := fun hk => h hk.symm
      simp [mapDelete, mapGet, hek]
    · by_cases he' : e.1 = k'
      · subst he'
        simp [mapDelete, mapGet, he]
      · simp [mapDelete, mapGet, he, he', ih]

lemma countKey_eq_one_of_get (l : Registry) (k : Option String) (v : Plugin)
    (hinv : nodupKeys l) (hget : mapGet l k = some v) : countKey l k = 1 := by
  induction l with
  | nil => simp [mapGet] at hget
  | cons e rest ih =>
    simp only [nodupKeys, List.map_cons, List.nodup_cons] at hinv
    by_cases he : e.1 = k
    · subst he
      simp [countKey, countKey_eq_zero_of_not_mem rest e.1 hinv.1]
    · simp only [mapGet, if_neg he] at hget
      simp [countKey, he, ih hinv.2 hget]

lemma mem_keys_of_get_some (l : Registry) (k : Option String) (v : Plugin)
    (hget : mapGet l k = some v) : k ∈ l.map Prod.fst := by
  induction l with
  | nil => simp [mapGet] at hget
  | cons e rest ih =>
    by_cases he : e.1 = k
    · simp [he]
    · simp only [mapGet, if_neg he] at hget
      simp [ih hget]

lemma mapSet_keys_of_not_mem (l : Registry) (k : Option String) (v : Plugin)
    (h : k ∉ l.map Prod.fst) : (mapSet l k v).map Prod.fst = l.map Prod.fst ++ [k] := by
  induction l with
  | nil => simp [mapSet]
  | cons e rest ih =>
    simp only [List.map_cons, List.mem_cons, not_or] at h
    have hek : ¬(e.1 = k) := fun hk => h.1 hk.symm
    simp [mapSet, hek, ih h.2]

lemma nodupKeys_mapSet (l : Registry) (k : Option String) (v : Plugin)
    (h : nodupKeys l) : nodupKeys (mapSet l k v) := by
  by_cases hk : k ∈ l.map Prod.fst
  · unfold nodupKeys
    rw [mapSet_keys_of_mem l k v hk]
    exact h
  · unfold nodupKeys
    rw [mapSet_keys_of_not_mem l k v hk]
    simp only [List.nodup_append, List.nodup_cons, List.nodup_nil]
    refine ⟨h, by simp, ?_⟩
    intro a ha hak
    simp only [List.mem_singleton] at hak
    subst hak
    exact hk ha

/-- Shared drop lemma: a non-registration envelope whose plugin id does
not resolve to a registered plugin leaves the state untouched and sends
nothing. -/
lemma onMsg_drop_of_unknown (v : String) (profile : UserProfileDirs) (o1 o2 : SettingOutcome)
    (s : PluginServer) (msg : Message) (ws : Nat)
    (hmt : msg.messageType ≠ MessageType.PLUGIN_REGISTER_REQUEST)
    (hid : ∀ p, msg.pluginId = some p → getPlugin s (some p) = none) :
    onMsg v profile o1 o2 s msg ws = (s, []) := by
  cases hpid : msg.pluginId with
  | none => simp [onMsg, hmt, hpid, truthy]
  | some p =>
    have hget : getPlugin s (some p) = none := hid p hpid
    by_cases hp : p = ""
    · subst hp
      simp [onMsg, hmt, hpid, truthy]
    · simp [onMsg, hmt, hpid, truthy, hp, hget]

/-! Concrete sample data used by witnesses and counterexamples. -/

/-- A sample set of user-profile directories. -/
def profileEx : UserProfileDirs :=
  { addonsDir := "/home/user/.webthings/addons"
    baseDir := "/home/user/.webthings"
    configDir := "/home/user/.webthings/config"
    dataDir := "/home/user/.webthings/data"
    mediaDir := "/home/user/.webthings/media"
    logDir := "/home/user/.webthings/log"
    gatewayDir := "/opt/gateway"
    }

/-- A sample gateway version string. -/
def versionEx : String := "1.1.0"

/-- C1: for every plugin id `p`, calling `registerPlugin(p)` twice in
sequence returns the identical `Plugin` instance both times, the second
call does not change the state produced by the first (so no duplicate is
constructed), and afterwards the registry holds exactly one entry for
`p`. -/
theorem C1_registerPlugin_idempotent (s : PluginServer) (p : String)
    (hinv : nodupKeys s.plugins) :
    (registerPlugin (registerPlugin s (some p)).2 (some p)).1 =
        (registerPlugin s (some p)).1 ∧
    (registerPlugin (registerPlugin s (some p)).2 (some p)).2 =
        (registerPlugin s (some p)).2 ∧
    countKey (registerPlugin s (some p)).2.plugins (some p) = 1 := by
  cases hget : mapGet s.plugins (some p) with
  | some pl =>
    refine ⟨?_, ?_, ?_⟩ <;> simp [registerPlugin, hget]
    exact countKey_eq_one_of_get s.plugins (some p) pl hinv hget
  | none =>
    refine ⟨?_, ?_, ?_⟩ <;> simp [registerPlugin, hget, mapGet_mapSet_self]
    exact countKey_mapSet_self s.plugins (some p) _ hinv

/-- Witness for C1 at the freshly constructed server and id `"abc"`. -/
theorem C1_registerPlugin_idempotent_witness :
    nodupKeys initialServer.plugins ∧
    ((registerPlugin (registerPlugin initialServer (some "abc")).2 (some "abc")).1 =
        (registerPlugin initialServer (some "abc")).1 ∧
      (registerPlugin (registerPlugin initialServer (some "abc")).2 (some "abc")).2 =
        (registerPlugin initialServer (some "abc")).2 ∧
      countKey (registerPlugin initialServer (some "abc")).2.plugins (some "abc") = 1) :=
  ⟨by decide, C1_registerPlugin_idempotent initialServer "abc" (by decide)⟩

/-- C7: each of `addAdapter`, `addNotifier` and `addAPIHandler` appends
exactly one forwarding call of the same name to the Add-on Manager and
leaves the plugin registry and the rest of the server state unchanged. -/
theorem C7_manager_passthrough (s : PluginServer) (proxy : Nat) :
    ((addAdapter s proxy).plugins = s.plugins ∧
      (addAdapter s proxy).nextInstId = s.nextInstId ∧
      (addAdapter s proxy).managerCalls =
        s.managerCalls ++ [ManagerCall.addAdapter proxy]) ∧
    ((addNotifier s proxy).plugins = s.plugins ∧
      (addNotifier s proxy).nextInstId = s.nextInstId ∧
      (addNotifier s proxy).managerCalls =
        s.managerCalls ++ [ManagerCall.addNotifier proxy]) ∧
    ((addAPIHandler s proxy).plugins = s.plugins ∧
      (addAPIHandler s proxy).nextInstId = s.nextInstId ∧
      (addAPIHandler s proxy).managerCalls =
        s.managerCalls ++ [ManagerCall.addAPIHandler proxy]) := by
  refine ⟨⟨rfl, rfl, rfl⟩, ⟨rfl, rfl, rfl⟩, ⟨rfl, rfl, rfl⟩⟩

/-- C3: a non-registration envelope whose plugin id is absent or not in
the registry is dropped: the server state (registry, allocator, manager
log) is returned unchanged and nothing is sent. -/
theorem C3_unknown_id_dropped (v : String) (profile : UserProfileDirs)
    (o1 o2 : SettingOutcome) (s : PluginServer) (msg : Message) (ws : Nat)
    (hmt : msg.messageType ≠ MessageType.PLUGIN_REGISTER_REQUEST)
    (hid : msg.pluginId = none ∨
      ∀ p, msg.pluginId = some p → getPlugin s (some p) = none) :
    onMsg v profile o1 o2 s msg ws = (s, []) := by
  apply onMsg_drop_of_unknown v profile o1 o2 s msg ws hmt
  intro p hp
  rcases hid with h | h
  · rw [h] at hp
    exact absurd hp (by simp)
  · exact h p hp

/-- Witness for C3: a property-changed envelope for the unregistered id
`"ghost"` at the freshly constructed server. -/
theorem C3_unknown_id_dropped_witness :
    ((Message.mk MessageType.PROPERTY_CHANGED (some "ghost")).messageType ≠
        MessageType.PLUGIN_REGISTER_REQUEST ∧
      ((Message.mk MessageType.PROPERTY_CHANGED (some "ghost")).pluginId = none ∨
        ∀ p, (Message.mk MessageType.PROPERTY_CHANGED (some "ghost")).pluginId = some p →
          getPlugin initialServer (some p) = none)) ∧
    onMsg versionEx profileEx (Except.ok none) (Except.ok none) initialServer
        (Message.mk MessageType.PROPERTY_CHANGED (some "ghost")) 7 =
      (initialServer, []) :=
  ⟨⟨by decide, Or.inr (fun p hp => by cases hp; rfl)⟩,
    C3_unknown_id_dropped versionEx profileEx (Except.ok none) (Except.ok none)
      initialServer (Message.mk MessageType.PROPERTY_CHANGED (some "ghost")) 7
      (by decide) (Or.inr (fun p hp => by cases hp; rfl))⟩

/-- A server whose registry holds exactly the plugin registered under
`"abc"`. -/
def sAbc : PluginServer := (registerPlugin initialServer (some "abc")).2

/-- A server whose registry holds exactly a plugin registered under the
empty-string id. -/
def sEmptyId : PluginServer := (registerPlugin initialServer (some "")).2

/-- A property-changed envelope addressed to the empty-string id. -/
def msgEmptyId : Message :=
  { messageType := MessageType.PROPERTY_CHANGED, pluginId := some "" }

/-- Counterexample to C2 as stated: the empty-string id can be registered
(`registerPlugin("")` accepts it), yet a non-registration envelope whose
`data.pluginId` equals that registered id is dropped — the dispatch guard
`if (msg.data.pluginId)` treats the empty string as falsy — so the
envelope is not delivered to the plugin registered under it: the state is
unchanged and the plugin's delivery log stays empty. -/
theorem C2_routing_counterexample :
    msgEmptyId.messageType ≠ MessageType.PLUGIN_REGISTER_REQUEST ∧
    (getPlugin sEmptyId (some "")).isSome = true ∧
    onMsg versionEx profileEx (Except.ok none) (Except.ok none) sEmptyId msgEmptyId 7 =
      (sEmptyId, []) ∧
    (getPlugin (onMsg versionEx profileEx (Except.ok none) (Except.ok none) sEmptyId
          msgEmptyId 7).1 (some "")).map Plugin.received = some [] := by
  decide

/-- C2 amended: for every non-registration envelope whose `data.pluginId`
equals a truthy (non-empty) id `p` present in the registry, `onMsg`
delivers the envelope to exactly the plugin registered under `p` (its
delivery log grows by that envelope), leaves every other registry entry
untouched, sends nothing, and changes no other server state. -/
theorem C2_routing_to_registered_plugin (v : String) (profile : UserProfileDirs)
    (o1 o2 : SettingOutcome) (s : PluginServer) (msg : Message) (ws : Nat)
    (p : String) (pl : Plugin)
    (hmt : msg.messageType ≠ MessageType.PLUGIN_REGISTER_REQUEST)
    (hpid : msg.pluginId = some p) (hp : p ≠ "")
    (hreg : getPlugin s (some p) = some pl) :
    (onMsg v profile o1 o2 s msg ws).2 = [] ∧
    getPlugin (onMsg v profile o1 o2 s msg ws).1 (some p) =
      some { pl with received := pl.received ++ [msg] } ∧
    (∀ k, k ≠ some p →
      getPlugin (onMsg v profile o1 o2 s msg ws).1 k = getPlugin s k) ∧
    (onMsg v profile o1 o2 s msg ws).1.nextInstId = s.nextInstId ∧
    (onMsg v profile o1 o2 s msg ws).1.managerCalls = s.managerCalls := by
  have hbranch : onMsg v profile o1 o2 s msg ws =
      ({ s with plugins := mapSet s.plugins (some p) ({ pl with received := pl.received ++ [msg] }) }, []) := by
    simp [onMsg, hmt, hpid, truthy, hp, hreg]
  rw [hbranch]
  refine ⟨rfl, ?_, ?_, rfl, rfl⟩
  · show mapGet (mapSet s.plugins (some p) _) (some p) = _
    exact mapGet_mapSet_self _ _ _
  · intro k hk
    show mapGet (mapSet s.plugins (some p) _) k = mapGet s.plugins k
    exact mapGet_mapSet_ne _ _ k _ hk

/-- Witness for the amended C2: a property-changed envelope for the
registered id `"abc"`. -/
theorem C2_routing_to_registered_plugin_witness :
    ((Message.mk MessageType.PROPERTY_CHANGED (some "abc")).messageType ≠
        MessageType.PLUGIN_REGISTER_REQUEST ∧
      (Message.mk MessageType.PROPERTY_CHANGED (some "abc")).pluginId = some "abc" ∧
      "abc" ≠ "" ∧
      getPlugin sAbc (some "abc") = some (newPlugin 0 (some "abc"))) ∧
    ((onMsg versionEx profileEx (Except.ok none) (Except.ok none) sAbc
        (Message.mk MessageType.PROPERTY_CHANGED (some "abc")) 7).2 = [] ∧
      getPlugin (onMsg versionEx profileEx (Except.ok none) (Except.ok none) sAbc
          (Message.mk MessageType.PROPERTY_CHANGED (some "abc")) 7).1 (some "abc") =
        some { newPlugin 0 (some "abc") with
               received := (newPlugin 0 (some "abc")).received ++
                 [Message.mk MessageType.PROPERTY_CHANGED (some "abc")] } ∧
      (∀ k, k ≠ some "abc" →
        getPlugin (onMsg versionEx profileEx (Except.ok none) (Except.ok none) sAbc
            (Message.mk MessageType.PROPERTY_CHANGED (some "abc")) 7).1 k =
          getPlugin sAbc k) ∧
      (onMsg versionEx profileEx (Except.ok none) (Except.ok none) sAbc
          (Message.mk MessageType.PROPERTY_CHANGED (some "abc")) 7).1.nextInstId =
        sAbc.nextInstId ∧
      (onMsg versionEx profileEx (Except.ok none) (Except.ok none) sAbc
          (Message.mk MessageType.PROPERTY_CHANGED (some "abc")) 7).1.managerCalls =
        sAbc.managerCalls) :=
  ⟨⟨by decide, by decide, by decide, by decide⟩,
    C2_routing_to_registered_plugin versionEx profileEx (Except.ok none) (Except.ok none)
      sAbc (Message.mk MessageType.PROPERTY_CHANGED (some "abc")) 7 "abc"
      (newPlugin 0 (some "abc")) (by decide) (by decide) (by decide) (by decide)⟩

/-- C5: after `unregisterPlugin(p)` the registry no longer contains `p`,
every other entry and the rest of the server state are unchanged, no
notification is appended to the Add-on Manager log, and any subsequent
non-registration envelope addressed to `p` is dropped. -/
theorem C5_unregister_cleans_up (s : PluginServer) (p : String)
    (hinv : nodupKeys s.plugins) :
    getPlugin (unregisterPlugin s (some p)) (some p) = none ∧
    (∀ k, k ≠ some p →
      getPlugin (unregisterPlugin s (some p)) k = getPlugin s k) ∧
    (unregisterPlugin s (some p)).managerCalls = s.managerCalls ∧
    (unregisterPlugin s (some p)).nextInstId = s.nextInstId ∧
    (∀ (v : String) (profile : UserProfileDirs) (o1 o2 : SettingOutcome) (ws mt : Nat),
      mt ≠ MessageType.PLUGIN_REGISTER_REQUEST →
      onMsg v profile o1 o2 (unregisterPlugin s (some p)) (Message.mk mt (some p)) ws =
        (unregisterPlugin s (some p), [])) := by
  have hdel : getPlugin (unregisterPlugin s (some p)) (some p) = none := by
    show mapGet (mapDelete s.plugins (some p)) (some p) = none
    exact mapGet_mapDelete_self s.plugins (some p) hinv
  refine ⟨hdel, ?_, rfl, rfl, ?_⟩
  · intro k hk
    show mapGet (mapDelete s.plugins (some p)) k = mapGet s.plugins k
    exact mapGet_mapDelete_ne s.plugins (some p) k hk
  · intro v profile o1 o2 ws mt hmt
    apply onMsg_drop_of_unknown v profile o1 o2 _ _ ws hmt
    intro q hq
    have hpq : p = q := by simpa using hq
    subst hpq
    exact hdel

/-- Witness for C5 at the server holding only `"abc"`. -/
theorem C5_unregister_cleans_up_witness :
    nodupKeys sAbc.plugins ∧
    (getPlugin (unregisterPlugin sAbc (some "abc")) (some "abc") = none ∧
      (∀ k, k ≠ some "abc" →
        getPlugin (unregisterPlugin sAbc (some "abc")) k = getPlugin sAbc k) ∧
      (unregisterPlugin sAbc (some "abc")).managerCalls = sAbc.managerCalls ∧
      (unregisterPlugin sAbc (some "abc")).nextInstId = sAbc.nextInstId ∧
      (∀ (v : String) (profile : UserProfileDirs) (o1 o2 : SettingOutcome) (ws mt : Nat),
        mt ≠ MessageType.PLUGIN_REGISTER_REQUEST →
        onMsg v profile o1 o2 (unregisterPlugin sAbc (some "abc"))
            (Message.mk mt (some "abc")) ws =
          (unregisterPlugin sAbc (some "abc"), []))) :=
  ⟨by decide, C5_unregister_cleans_up sAbc "abc" (by decide)⟩

/-- C9: a register request for an id `q` already registered keeps the
existing `Plugin` instance — the stored entry is the old record with only
its channel handle `ws` overwritten by the new connection, the identity
allocator does not move, and no registry key is added or removed. -/
theorem C9_reregistration_rebinds_channel (v : String) (profile : UserProfileDirs)
    (o1 o2 : SettingOutcome) (s : PluginServer) (q : String) (pl : Plugin) (ws : Nat)
    (hreg : getPlugin s (some q) = some pl) :
    getPlugin (onMsg v profile o1 o2 s
        (Message.mk MessageType.PLUGIN_REGISTER_REQUEST (some q)) ws).1 (some q) =
      some { pl with ws := some ws } ∧
    (∀ k, k ≠ some q →
      getPlugin (onMsg v profile o1 o2 s
          (Message.mk MessageType.PLUGIN_REGISTER_REQUEST (some q)) ws).1 k =
        getPlugin s k) ∧
    (onMsg v profile o1 o2 s
        (Message.mk MessageType.PLUGIN_REGISTER_REQUEST (some q)) ws).1.nextInstId =
      s.nextInstId ∧
    (onMsg v profile o1 o2 s
        (Message.mk MessageType.PLUGIN_REGISTER_REQUEST (some q)) ws).1.plugins.map
        Prod.fst =
      s.plugins.map Prod.fst := by
  have hget : mapGet s.plugins (some q) = some pl := hreg
  have hbranch : (onMsg v profile o1 o2 s
      (Message.mk MessageType.PLUGIN_REGISTER_REQUEST (some q)) ws).1 =
      { s with plugins := mapSet s.plugins (some q) ({ pl with ws := some ws }) } := by
    simp [onMsg, registerPlugin, hget]
  rw [hbranch]
  refine ⟨?_, ?_, rfl, ?_⟩
  · show mapGet (mapSet s.plugins (some q) _) (some q) = _
    exact mapGet_mapSet_self _ _ _
  · intro k hk
    show mapGet (mapSet s.plugins (some q) _) k = mapGet s.plugins k
    exact mapGet_mapSet_ne _ _ k _ hk
  · show (mapSet s.plugins (some q) _).map Prod.fst = s.plugins.map Prod.fst
    exact mapSet_keys_of_mem s.plugins (some q) _
      (mem_keys_of_get_some s.plugins (some q) pl hget)

/-- Witness for C9: re-registering `"abc"` on connection 9. -/
theorem C9_reregistration_rebinds_channel_witness :
    getPlugin sAbc (some "abc") = some (newPlugin 0 (some "abc")) ∧
    (getPlugin (onMsg versionEx profileEx (Except.ok none) (Except.ok none) sAbc
        (Message.mk MessageType.PLUGIN_REGISTER_REQUEST (some "abc")) 9).1 (some "abc") =
      some { newPlugin 0 (some "abc") with ws := some 9 } ∧
    (∀ k, k ≠ some "abc" →
      getPlugin (onMsg versionEx profileEx (Except.ok none) (Except.ok none) sAbc
          (Message.mk MessageType.PLUGIN_REGISTER_REQUEST (some "abc")) 9).1 k =
        getPlugin sAbc k) ∧
    (onMsg versionEx profileEx (Except.ok none) (Except.ok none) sAbc
        (Message.mk MessageType.PLUGIN_REGISTER_REQUEST (some "abc")) 9).1.nextInstId =
      sAbc.nextInstId ∧
    (onMsg versionEx profileEx (Except.ok none) (Except.ok none) sAbc
        (Message.mk MessageType.PLUGIN_REGISTER_REQUEST (some "abc")) 9).1.plugins.map
        Prod.fst =
      sAbc.plugins.map Prod.fst) :=
  ⟨by decide,
    C9_reregistration_rebinds_channel versionEx profileEx (Except.ok none) (Except.ok none)
      sAbc "abc" (newPlugin 0 (some "abc")) 9 (by decide)⟩

/-- C8: `loadPlugin(path, manifest)` registers (or reuses, via
`registerPlugin`) the plugin under `manifest.name`, stores
`manifest.moziot.exec` as its `exec` and `path` as its `execPath`, and
starts it; when the id was already registered the existing instance is
reused and no second registry entry appears. -/
theorem C8_loadPlugin_attaches_and_starts (s : PluginServer) (path : String) (m : Manifest) :
    getPlugin (loadPlugin s path m) (some m.name) =
      some { (registerPlugin s (some m.name)).1 with
             exec := some m.moziot.exec, execPath := some path, started := true } ∧
    (∀ pl0, getPlugin s (some m.name) = some pl0 →
      (registerPlugin s (some m.name)).1 = pl0 ∧
      (loadPlugin s path m).plugins.map Prod.fst = s.plugins.map Prod.fst ∧
      (loadPlugin s path m).nextInstId = s.nextInstId) ∧
    (nodupKeys s.plugins → countKey (loadPlugin s path m).plugins (some m.name) = 1) := by
  cases hget : mapGet s.plugins (some m.name) with
  | some pl =>
    have hr : registerPlugin s (some m.name) = (pl, s) := by
      simp [registerPlugin, hget]
    refine ⟨?_, ?_, ?_⟩
    · show mapGet (loadPlugin s path m).plugins (some m.name) = _
      simp [loadPlugin, hr, mapGet_mapSet_self]
    · intro pl0 h0
      have hpl : pl = pl0 := by
        have h0g : mapGet s.plugins (some m.name) = some pl0 := h0
        rw [hget] at h0g
        exact Option.some.inj h0g
      subst hpl
      refine ⟨by rw [hr], ?_, by simp [loadPlugin, hr]⟩
      show (mapSet (registerPlugin s (some m.name)).2.plugins (some m.name) _).map Prod.fst =
        s.plugins.map Prod.fst
      rw [hr]
      exact mapSet_keys_of_mem s.plugins (some m.name) _
        (mem_keys_of_get_some s.plugins (some m.name) pl hget)
    · intro hinv
      show countKey (mapSet (registerPlugin s (some m.name)).2.plugins (some m.name) _)
        (some m.name) = 1
      rw [hr]
      exact countKey_mapSet_self s.plugins (some m.name) _ hinv
  | none =>
    refine ⟨?_, ?_, ?_⟩
    · show mapGet (loadPlugin s path m).plugins (some m.name) = _
      simp [loadPlugin, registerPlugin, hget, mapGet_mapSet_self]
    · intro pl0 h0
      have h0g : mapGet s.plugins (some m.name) = some pl0 := h0
      rw [hget] at h0g
      exact absurd h0g (by simp)
    · intro hinv
      show countKey (mapSet (registerPlugin s (some m.name)).2.plugins (some m.name) _)
        (some m.name) = 1
      have hr2 : (registerPlugin s (some m.name)).2.plugins =
          mapSet s.plugins (some m.name) (newPlugin s.nextInstId (some m.name)) := by
        simp [registerPlugin, hget]
      rw [hr2]
      exact countKey_mapSet_self _ (some m.name) _
        (nodupKeys_mapSet s.plugins (some m.name) _ hinv)

/-- Witness for C8: loading the already-registered id `"abc"` with a
manifest. -/
theorem C8_loadPlugin_attaches_and_starts_witness :
    getPlugin (loadPlugin sAbc "/plugins/abc" (Manifest.mk "abc" (Moziot.mk "python3 main.py")))
        (some "abc") =
      some { (registerPlugin sAbc (some "abc")).1 with
             exec := some "python3 main.py", execPath := some "/plugins/abc",
             started := true } ∧
    (∀ pl0, getPlugin sAbc (some "abc") = some pl0 →
      (registerPlugin sAbc (some "abc")).1 = pl0 ∧
      (loadPlugin sAbc "/plugins/abc"
          (Manifest.mk "abc" (Moziot.mk "python3 main.py"))).plugins.map Prod.fst =
        sAbc.plugins.map Prod.fst ∧
      (loadPlugin sAbc "/plugins/abc"
          (Manifest.mk "abc" (Moziot.mk "python3 main.py"))).nextInstId = sAbc.nextInstId) ∧
    (nodupKeys sAbc.plugins →
      countKey (loadPlugin sAbc "/plugins/abc"
          (Manifest.mk "abc" (Moziot.mk "python3 main.py"))).plugins (some "abc") = 1) :=
  C8_loadPlugin_attaches_and_starts sAbc "/plugins/abc"
    (Manifest.mk "abc" (Moziot.mk "python3 main.py"))

/-- C4: when the settings promises reject — the language lookup rejects,
so no later lookup runs — the rejection is swallowed and the register
response is still sent with `language = "en-US"` and `units.temperature =
"degree celsius"`; moreover for every lookup outcome whatsoever the
handshake sends exactly one response, so it never stalls. -/
theorem C4_pref_failure_still_responds (v : String) (profile : UserProfileDirs)
    (o2 : SettingOutcome) (s : PluginServer) (msg : Message) (ws : Nat)
    (hmt : msg.messageType = MessageType.PLUGIN_REGISTER_REQUEST) :
    (onMsg v profile (Except.error ()) o2 s msg ws).2 =
      [{ channel := ws
         messageType := MessageType.PLUGIN_REGISTER_RESPONSE
         data :=
           { pluginId := msg.pluginId
             gatewayVersion := v
             userProfile := profile
             preferences :=
               { language := "en-US", units := { temperature := "degree celsius" } } } }] ∧
    (∀ p1 p2 : SettingOutcome, ((onMsg v profile p1 p2 s msg ws).2).length = 1) := by
  constructor
  · simp [onMsg, hmt, handshakePrefs]
  · intro p1 p2
    simp [onMsg, hmt]

/-- Witness for C4: a register request from `"abc"` with both lookups
rejecting. -/
theorem C4_pref_failure_still_responds_witness :
    (Message.mk MessageType.PLUGIN_REGISTER_REQUEST (some "abc")).messageType =
      MessageType.PLUGIN_REGISTER_REQUEST ∧
    ((onMsg versionEx profileEx (Except.error ()) (Except.error ()) initialServer
        (Message.mk MessageType.PLUGIN_REGISTER_REQUEST (some "abc")) 7).2 =
      [{ channel := 7
         messageType := MessageType.PLUGIN_REGISTER_RESPONSE
         data :=
           { pluginId := some "abc"
             gatewayVersion := versionEx
             userProfile := profileEx
             preferences :=
               { language := "en-US", units := { temperature := "degree celsius" } } } }] ∧
    (∀ p1 p2 : SettingOutcome,
      ((onMsg versionEx profileEx p1 p2 initialServer
          (Message.mk MessageType.PLUGIN_REGISTER_REQUEST (some "abc")) 7).2).length = 1)) :=
  ⟨by decide,
    C4_pref_failure_still_responds versionEx profileEx (Except.error ()) initialServer
      (Message.mk MessageType.PLUGIN_REGISTER_REQUEST (some "abc")) 7 rfl⟩

/-- C6: the response to a register request with plugin id `q` is a single
`PLUGIN_REGISTER_RESPONSE` on the same connection whose payload echoes
`pluginId = q` and carries the gateway version string, the user profile
with its seven directory fields (`UserProfileDirs` has exactly those
fields), and a preferences record with `language` and
`units.temperature` as resolved by the handshake. -/
theorem C6_register_response_payload (v : String) (profile : UserProfileDirs)
    (o1 o2 : SettingOutcome) (s : PluginServer) (msg : Message) (ws : Nat) (q : String)
    (hmt : msg.messageType = MessageType.PLUGIN_REGISTER_REQUEST)
    (hpid : msg.pluginId = some q) :
    (onMsg v profile o1 o2 s msg ws).2 =
      [{ channel := ws
         messageType := MessageType.PLUGIN_REGISTER_RESPONSE
         data :=
           { pluginId := some q
             gatewayVersion := v
             userProfile := profile
             preferences :=
               { language := (handshakePrefs o1 o2).1
                 units := { temperature := (handshakePrefs o1 o2).2 } } } }] := by
  simp [onMsg, hmt, hpid]

/-- Witness for C6: plugin `"abc"` registers with a stored language
`"fr"` and a rejected temperature lookup. -/
theorem C6_register_response_payload_witness :
    ((Message.mk MessageType.PLUGIN_REGISTER_REQUEST (some "abc")).messageType =
        MessageType.PLUGIN_REGISTER_REQUEST ∧
      (Message.mk MessageType.PLUGIN_REGISTER_REQUEST (some "abc")).pluginId = some "abc") ∧
    (onMsg versionEx profileEx (Except.ok (some "fr")) (Except.error ()) initialServer
        (Message.mk MessageType.PLUGIN_REGISTER_REQUEST (some "abc")) 7).2 =
      [{ channel := 7
         messageType := MessageType.PLUGIN_REGISTER_RESPONSE
         data :=
           { pluginId := some "abc"
             gatewayVersion := versionEx
             userProfile := profileEx
             preferences :=
               { language := (handshakePrefs (Except.ok (some "fr")) (Except.error ())).1
                 units := { temperature :=
                   (handshakePrefs (Except.ok (some "fr")) (Except.error ())).2 } } } }] :=
  ⟨⟨by decide, by decide⟩,
    C6_register_response_payload versionEx profileEx (Except.ok (some "fr"))
      (Except.error ()) initialServer
      (Message.mk MessageType.PLUGIN_REGISTER_REQUEST (some "abc")) 7 "abc" rfl rfl⟩

/-- C10: a settings lookup that resolves with a falsy value (absent/null
or the empty string) leaves the corresponding default in place, and the
handshake preferences differ from their defaults only when the resolved
stored value is truthy (in which case they equal that value). -/
theorem C10_falsy_setting_keeps_default (o1 o2 : SettingOutcome) :
    (∀ vl, o1 = Except.ok vl → truthy vl = false →
      (handshakePrefs o1 o2).1 = "en-US") ∧
    (∀ vt, o2 = Except.ok vt → truthy vt = false →
      (handshakePrefs o1 o2).2 = "degree celsius") ∧
    ((handshakePrefs o1 o2).1 ≠ "en-US" →
      ∃ t, o1 = Except.ok (some t) ∧ t ≠ "" ∧ (handshakePrefs o1 o2).1 = t) ∧
    ((handshakePrefs o1 o2).2 ≠ "degree celsius" →
      ∃ t, o2 = Except.ok (some t) ∧ t ≠ "" ∧ (handshakePrefs o1 o2).2 = t) := by
  refine ⟨?_, ?_, ?_, ?_⟩
  · intro vl h1 htr
    subst h1
    cases o2 with
    | error e => simp [handshakePrefs, htr]
    | ok vt => simp [handshakePrefs, htr]
  · intro vt h2 htr
    cases o1 with
    | error e => simp [handshakePrefs]
    | ok vl =>
      subst h2
      simp [handshakePrefs, htr]
  · intro hne
    cases o1 with
    | error e => exact absurd (by simp [handshakePrefs]) hne
    | ok vl =>
      cases vl with
      | none => exact absurd (by cases o2 <;> simp [handshakePrefs, truthy]) hne
      | some t =>
        by_cases ht : t = ""
        · subst ht
          exact absurd (by cases o2 <;> simp [handshakePrefs, truthy]) hne
        · refine ⟨t, rfl, ht, ?_⟩
          cases o2 <;> simp [handshakePrefs, truthy, ht]
  · intro hne
    cases o1 with
    | error e => exact absurd (by simp [handshakePrefs]) hne
    | ok vl =>
      cases o2 with
      | error e => exact absurd (by simp [handshakePrefs]) hne
      | ok vt =>
        cases vt with
        | none => exact absurd (by simp [handshakePrefs, truthy]) hne
        | some t =>
          by_cases ht : t = ""
          · subst ht
            exact absurd (by simp [handshakePrefs, truthy]) hne
          · refine ⟨t, rfl, ht, ?_⟩
            simp [handshakePrefs, truthy, ht]

/-- Witness for C10: the language lookup resolves with the empty string
and the temperature lookup with an absent value; both defaults stay. -/
theorem C10_falsy_setting_keeps_default_witness :
    (∀ vl, Except.ok (some "") = (Except.ok vl : SettingOutcome) → truthy vl = false →
      (handshakePrefs (Except.ok (some "")) (Except.ok none)).1 = "en-US") ∧
    (∀ vt, Except.ok none = (Except.ok vt : SettingOutcome) → truthy vt = false →
      (handshakePrefs (Except.ok (some "")) (Except.ok none)).2 = "degree celsius") ∧
    ((handshakePrefs (Except.ok (some "")) (Except.ok none)).1 ≠ "en-US" →
      ∃ t, (Except.ok (some "") : SettingOutcome) = Except.ok (some t) ∧ t ≠ "" ∧
        (handshakePrefs (Except.ok (some "")) (Except.ok none)).1 = t) ∧
    ((handshakePrefs (Except.ok (some "")) (Except.ok none)).2 ≠ "degree celsius" →
      ∃ t, (Except.ok none : SettingOutcome) = Except.ok (some t) ∧ t ≠ "" ∧
        (handshakePrefs (Except.ok (some "")) (Except.ok none)).2 = t) :=
  C10_falsy_setting_keeps_default (Except.ok (some "")) (Except.ok none)
